import Mathlib

/-!
A shallow embedding of the 13-week cash-flow forecasting engine
(`CashFlowForecaster` in `Wcf.py`).

Conventions:
* Calendar dates are integers counting days, with day 0 falling on a
  Monday, so a date `d` is a Monday exactly when `d % 7 = 0`.
* Currency amounts are exact rationals (`Rat`).  A pandas floating value
  that may be NaN is modelled as `Option Rat`: `none` plays the role of
  NaN and propagates through arithmetic via `Option.map₂`.
* ISO-8601 week numbering is kept abstract: definitions take a function
  `iso : Int → Nat` assigning each date its ISO week-of-year, the same
  oracle the source obtains from `isocalendar()`.  All theorems are
  uniform in `iso`.
-/

namespace Wcf

/-- A historical transaction record (one row of the input table). -/
structure Transaction where
  date : Int
  category : String
  amount : Rat
  payment_terms : String
deriving DecidableEq

/-- Arithmetic mean of a list of amounts; `none` on the empty list
(pandas `mean()` of an empty selection is NaN). -/
def mean (l : List Rat) : Option Rat :=
  if l.isEmpty then none else some (l.sum / (l.length : Rat))

/-- Earliest date in the historical data (`historical['date'].min()`);
`none` when there is no data at all. -/
def minDate : List Transaction → Option Int
  | [] => none
  | t :: ts => some (ts.foldl (fun m u => min m u.date) t.date)

/-- The AR collection pattern table returned by
`_calculate_collection_patterns`. -/
structure CollectionPattern where
  current : Rat
  week_1 : Rat
  week_2 : Rat
  week_3 : Rat
  week_4 : Rat
deriving DecidableEq

/-- `_calculate_collection_patterns`: both branches of the source return
the same constant table (the data-driven branch is a placeholder). -/
def calculateCollectionPatterns (hist : List Transaction) : CollectionPattern :=
  if (hist.filter (fun t => t.category == "AR Collections")).length == 0 then
    { current := 30/100, week_1 := 40/100, week_2 := 20/100,
      week_3 := 8/100, week_4 := 2/100 }
  else
    { current := 30/100, week_1 := 40/100, week_2 := 20/100,
      week_3 := 8/100, week_4 := 2/100 }

/-- `_calculate_payment_patterns` (informational only; not consumed by
the weekly projection arithmetic). -/
def calculatePaymentPatterns : List (String × List String) :=
  [("immediate", ["Payroll", "Rent", "Utilities"]),
   ("net_30", ["Marketing", "Software", "Professional Services"]),
   ("net_15", ["Supplies", "Travel"])]

/-- `_forecast_revenue`: mean of historical Revenue amounts whose ISO
week-of-year matches that of `week_start`; if that selection is empty,
mean of all Revenue amounts divided by 4; the result is scaled by the
linear growth factor `1 + 0.05 * weeks_from_start / 52`.  `none` models
the NaN produced when the historical data has no Revenue rows (or is
empty, so that `min()` of the dates is undefined). -/
def forecastRevenue (iso : Int → Nat) (hist : List Transaction)
    (week_start : Int) : Option Rat :=
  let week_of_year := iso week_start
  let historical_revenue :=
    mean ((hist.filter
      (fun t => t.category == "Revenue" && iso t.date == week_of_year)).map
      (fun t => t.amount))
  let base :=
    match historical_revenue with
    | some m => some m
    | none =>
      (mean ((hist.filter (fun t => t.category == "Revenue")).map
        (fun t => t.amount))).map (fun m => m / 4)
  match base, minDate hist with
  | some b, some d0 =>
    some (b * (1 + (5/100) * (((week_start - d0 : Int) : Rat) / 7) / 52))
  | _, _ => none

/-- `_forecast_ar_collections`: lagged collections of forecast revenue,
one term per lag 0..4, a lag only contributing when
`week_index >= lag_weeks`. -/
def forecastARCollections (iso : Int → Nat) (hist : List Transaction)
    (week_start : Int) (week_index : Nat) : Option Rat :=
  let p := calculateCollectionPatterns hist
  [(0, p.current), (1, p.week_1), (2, p.week_2), (3, p.week_3),
   (4, p.week_4)].foldl
    (fun acc lr =>
      if lr.1 ≤ week_index then
        Option.map₂ (· + ·) acc
          ((forecastRevenue iso hist (week_start - 7 * (lr.1 : Int))).map
            (fun r => r * lr.2))
      else acc)
    (some 0)

/-- The average historical Payroll amount, defaulting to 50000 when no
Payroll rows exist (the `pd.isna` fallback in `_forecast_payroll`). -/
def payrollBaseAmount (hist : List Transaction) : Rat :=
  (mean ((hist.filter (fun t => t.category == "Payroll")).map
    (fun t => t.amount))).getD 50000

/-- `_forecast_payroll`: bi-weekly payroll keyed on the parity of the
ISO week number of `week_start`. -/
def forecastPayroll (iso : Int → Nat) (hist : List Transaction)
    (week_start : Int) : Rat :=
  if iso week_start % 2 == 0 then payrollBaseAmount hist else 0

/-- The fixed operating-expense category set of `_forecast_opex`. -/
def opexCategories : List String :=
  ["Marketing", "Software", "Rent", "Utilities",
   "Professional Services", "Supplies", "Travel"]

/-- The weekly grouping key of `to_period('W')`: weeks run Monday–Sunday,
so with day 0 a Monday the key is the floor of division by 7. -/
def weekPeriod (d : Int) : Int := Int.fdiv d 7

/-- `_forecast_opex`: mean over the historical weeks of the per-week sum
of amounts in the opex categories, defaulting to 15000 when that mean is
undefined. -/
def forecastOpex (hist : List Transaction) : Rat :=
  let op := hist.filter (fun t => opexCategories.contains t.category)
  let weeks := (op.map (fun t => weekPeriod t.date)).dedup
  let sums := weeks.map
    (fun w => ((op.filter (fun t => weekPeriod t.date == w)).map
      (fun t => t.amount)).sum)
  (mean sums).getD 15000

/-- One scenario's multiplier triple. -/
structure ScenarioAdjustment where
  revenue : Rat
  collections : Rat
  expenses : Rat
deriving DecidableEq

/-- The fixed scenario table of `generate_forecast`; `none` models the
`KeyError` raised on an unknown scenario label. -/
def scenarioAdjustments (scenario : String) : Option ScenarioAdjustment :=
  if scenario == "best" then
    some { revenue := 115/100, collections := 110/100, expenses := 95/100 }
  else if scenario == "base" then
    some { revenue := 100/100, collections := 100/100, expenses := 100/100 }
  else if scenario == "worst" then
    some { revenue := 85/100, collections := 90/100, expenses := 105/100 }
  else none

/-- One output row of `generate_forecast`. -/
structure ForecastWeek where
  week_number : Nat
  week_start : Int
  week_end : Int
  opening_balance : Option Rat
  revenue : Option Rat
  ar_collections : Option Rat
  total_inflows : Option Rat
  cogs : Option Rat
  payroll : Option Rat
  operating_expenses : Option Rat
  total_outflows : Option Rat
  net_cash_flow : Option Rat
  ending_balance : Option Rat
  scenario : String
deriving DecidableEq

/-- The body of the per-week loop of `generate_forecast`: assembles the
row for 0-based week `i` starting at date `ws` with running balance
`bal`. -/
def mkRow (iso : Int → Nat) (hist : List Transaction)
    (adj : ScenarioAdjustment) (scenario : String) (i : Nat) (ws : Int)
    (bal : Option Rat) : ForecastWeek :=
  let revenue := (forecastRevenue iso hist ws).map (fun r => r * adj.revenue)
  let ar_collections :=
    (forecastARCollections iso hist ws i).map (fun a => a * adj.collections)
  let total_inflows := Option.map₂ (· + ·) revenue ar_collections
  let cogs := revenue.map (fun r => r * (35/100))
  let payroll := some (forecastPayroll iso hist ws * adj.expenses)
  let operating_expenses := some (forecastOpex hist * adj.expenses)
  let total_outflows :=
    Option.map₂ (· + ·) (Option.map₂ (· + ·) cogs payroll) operating_expenses
  let net_cash_flow := Option.map₂ (· - ·) total_inflows total_outflows
  let ending_balance := Option.map₂ (· + ·) bal net_cash_flow
  { week_number := i + 1
    week_start := ws
    week_end := ws + 6
    opening_balance := bal
    revenue := revenue
    ar_collections := ar_collections
    total_inflows := total_inflows
    cogs := cogs
    payroll := payroll
    operating_expenses := operating_expenses
    total_outflows := total_outflows
    net_cash_flow := net_cash_flow
    ending_balance := ending_balance
    scenario := scenario }

/-- The loop of `generate_forecast`, producing `n` rows starting at
0-based index `i` and week-start date `ws`, threading the balance. -/
def rowsAux (iso : Int → Nat) (hist : List Transaction)
    (adj : ScenarioAdjustment) (scenario : String) :
    Nat → Nat → Int → Option Rat → List ForecastWeek
  | _, 0, _, _ => []
  | i, n + 1, ws, bal =>
    let row := mkRow iso hist adj scenario i ws bal
    row :: rowsAux iso hist adj scenario (i + 1) n (ws + 7) row.ending_balance

/-- The running balance after `n` weeks of the loop (the value of
`current_balance` after `n` iterations). -/
def finalBalance (iso : Int → Nat) (hist : List Transaction)
    (adj : ScenarioAdjustment) (scenario : String) :
    Nat → Nat → Int → Option Rat → Option Rat
  | _, 0, _, bal => bal
  | i, n + 1, ws, bal =>
    finalBalance iso hist adj scenario (i + 1) n (ws + 7)
      (mkRow iso hist adj scenario i ws bal).ending_balance

/-- The first Monday on or after `start`: the anchor of
`pd.date_range(start, periods=13, freq='W-MON')`. -/
def firstMonday (start : Int) : Int := start + (-start) % 7

/-- `generate_forecast(start_date, opening_balance, scenario)`:
`none` models the `KeyError` on an unknown scenario label. -/
def generateForecast (iso : Int → Nat) (hist : List Transaction)
    (start : Int) (opening_balance : Rat) (scenario : String) :
    Option (List ForecastWeek) :=
  (scenarioAdjustments scenario).map
    (fun adj =>
      rowsAux iso hist adj scenario 0 13 (firstMonday start)
        (some opening_balance))

/-- The last row of a (non-empty) forecast, i.e. `iloc[-1]`, projected to
its ending balance.  For a forecast of the engine this is the week-13
ending balance. -/
def weekThirteenEnding (iso : Int → Nat) (hist : List Transaction)
    (start : Int) (opening_balance : Rat) (scenario : String) : Option Rat :=
  ((generateForecast iso hist start opening_balance scenario).getD
    []).getLast?.bind (fun r => r.ending_balance)

/-- One output row of `sensitivity_analysis`. -/
structure SensitivityRow where
  variable_ : String
  change : String
  ending_balance : Option Rat
  variance_from_base : Option Rat
  variance_pct : Option Rat
deriving DecidableEq

/-- The five tested perturbations of `sensitivity_analysis`, each paired
with the label the source formats from it. -/
def sensitivityChanges : List (Rat × String) :=
  [(-20/100, "-20%"), (-10/100, "-10%"), (0, "+0%"),
   (10/100, "+10%"), (20/100, "+20%")]

/-- One row of `sensitivity_analysis` for a given elasticity:
`adjusted_ending = base_ending * (1 + change * elasticity)`. -/
def mkSensRow (label : String) (elasticity : Rat) (base_ending : Option Rat)
    (p : Rat × String) : SensitivityRow :=
  let adjusted := base_ending.map (fun b => b * (1 + p.1 * elasticity))
  { variable_ := label
    change := p.2
    ending_balance := adjusted
    variance_from_base := Option.map₂ (· - ·) adjusted base_ending
    variance_pct :=
      Option.map₂ (fun a b => (a / b - 1) * 100) adjusted base_ending }

/-- `sensitivity_analysis(start_date, opening_balance)`: five Revenue
rows (elasticity 1.5) followed by five Collection Rate rows
(elasticity 0.8), perturbing the base case's week-13 ending balance.
The inner base-case `generate_forecast` call cannot fail (the label
`'base'` is always in the scenario table), so the `getD` inside
`weekThirteenEnding` is never exercised. -/
def sensitivityAnalysis (iso : Int → Nat) (hist : List Transaction)
    (start : Int) (opening_balance : Rat) : List SensitivityRow :=
  let base_ending := weekThirteenEnding iso hist start opening_balance "base"
  sensitivityChanges.map (mkSensRow "Revenue" (15/10) base_ending) ++
    sensitivityChanges.map (mkSensRow "Collection Rate" (8/10) base_ending)

/-!
Spec-side definitions.  Each is written from the wording of the
specification (not from the source) and is compared with the
corresponding source-derived definition in the theorems below.
-/

/-- Written from the spec: the collection-pattern fraction per lag week,
"the fixed constants 0.30, 0.40, 0.20, 0.08, 0.02 for lags 0..4". -/
def collectionFraction : Nat → Rat
  | 0 => 30/100
  | 1 => 40/100
  | 2 => 20/100
  | 3 => 8/100
  | _ => 2/100

/-- Sum of a list of possibly-NaN amounts. -/
def osum (l : List (Option Rat)) : Option Rat :=
  l.foldl (Option.map₂ (· + ·)) (some 0)

/-- Written from the spec: weekly revenue is the historical mean Revenue
amount for the matching ISO week-of-year across all historical years,
falling back to the mean of all Revenue amounts divided by 4, and the
base figure is multiplied by the growth factor
`1 + 0.05 * (weeks_elapsed_since_earliest_historical_date / 52)` where
the elapsed weeks are the day difference divided by 7. -/
def revenueSpec (iso : Int → Nat) (hist : List Transaction)
    (week_start : Int) : Option Rat :=
  let matching := (hist.filter
    (fun t => t.category == "Revenue" && iso t.date == iso week_start)).map
    (fun t => t.amount)
  let base :=
    match mean matching with
    | some m => some m
    | none =>
      (mean ((hist.filter (fun t => t.category == "Revenue")).map
        (fun t => t.amount))).map (fun m => m / 4)
  match base, minDate hist with
  | some b, some d0 =>
    some (b * (1 + (5/100) * ((((week_start - d0 : Int) : Rat) / 7) / 52)))
  | _, _ => none

/-- Written from the spec: AR collections for the week with 0-based
index `i` are the sum, over the lags `0..4` with `i ≥ lag`, of the
pre-scenario revenue estimate at `week_start - lag` weeks times the
collection fraction for that lag. -/
def arCollectionsSpec (iso : Int → Nat) (hist : List Transaction)
    (week_start : Int) (i : Nat) : Option Rat :=
  osum (((List.range 5).filter (fun lag => lag ≤ i)).map
    (fun lag =>
      (forecastRevenue iso hist (week_start - 7 * (Int.ofNat lag))).map
        (fun r => r * collectionFraction lag)))

/-- Written from the spec: payroll is the mean historical Payroll amount
(default 50000) scaled by the scenario expense multiplier when the ISO
week number is even, and 0 when it is odd. -/
def payrollSpec (iso : Int → Nat) (hist : List Transaction)
    (expenseMultiplier : Rat) (week_start : Int) : Rat :=
  if iso week_start % 2 = 0 then
    ((mean ((hist.filter (fun t => t.category == "Payroll")).map
      (fun t => t.amount))).getD 50000) * expenseMultiplier
  else 0

/-!
Concrete inputs used to instantiate the theorems below.
-/

/-- A concrete ISO week-numbering oracle: every date in week 1 (odd). -/
def isoOdd : Int → Nat := fun _ => 1

/-- A concrete ISO week-numbering oracle: every date in week 2 (even). -/
def isoEven : Int → Nat := fun _ => 2

/-- Historical data with a single Revenue transaction. -/
def histRev : List Transaction := [⟨0, "Revenue", 400, "na"⟩]

/-- Historical data with a single Payroll transaction and no Revenue
rows. -/
def histPay : List Transaction := [⟨0, "Payroll", 100, "na"⟩]

/-- The base-case forecast of `histRev` started at day 0 with opening
balance 100, used to instantiate the theorems below. -/
def baseRowsRev : List ForecastWeek :=
  (generateForecast isoOdd histRev 0 100 "base").getD []

/-- A placeholder sensitivity row used as the default of `List.getD`
when indexing sensitivity output. -/
def sensPlaceholder : SensitivityRow := ⟨"", "", none, none, none⟩

/-!
Structural lemmas about the embedding.
-/

/-- An option that is `some` equals `some` of its `getD`. -/
theorem eq_some_getD {α : Type} (o : Option α) (d : α)
    (h : o.isSome = true) : o = some (o.getD d) := by
  cases o with
  | none => simp at h
  | some a => rfl

/-- Both branches of `_calculate_collection_patterns` return the same
constant table. -/
theorem calculateCollectionPatterns_eq (hist : List Transaction) :
    calculateCollectionPatterns hist =
      { current := 30/100, week_1 := 40/100, week_2 := 20/100,
        week_3 := 8/100, week_4 := 2/100 } := by
  simp [calculateCollectionPatterns]

/-- The loop produces exactly `n` rows. -/
theorem rowsAux_length (iso : Int → Nat) (hist : List Transaction)
    (adj : ScenarioAdjustment) (scen : String) :
    ∀ (n i : Nat) (ws : Int) (bal : Option Rat),
      (rowsAux iso hist adj scen i n ws bal).length = n := by
  intro n
  induction n with
  | zero => intro i ws bal; rfl
  | succ n ih =>
    intro i ws bal
    simp only [rowsAux, List.length_cons, ih]

/-- The running balance after `k + 1` iterations is the ending balance
of the row produced at iteration `k`. -/
theorem finalBalance_succ (iso : Int → Nat) (hist : List Transaction)
    (adj : ScenarioAdjustment) (scen : String) :
    ∀ (k i : Nat) (ws : Int) (bal : Option Rat),
      finalBalance iso hist adj scen i (k + 1) ws bal =
        (mkRow iso hist adj scen (i + k) (ws + 7 * k)
          (finalBalance iso hist adj scen i k ws bal)).ending_balance := by
  intro k
  induction k with
  | zero =>
    intro i ws bal
    simp [finalBalance]
  | succ k ih =>
    intro i ws bal
    have h1 : i + 1 + k = i + (k + 1) := by omega
    have h2 : ws + 7 + 7 * (k : Int) = ws + 7 * ((k : Nat) + 1 : Nat) := by
      push_cast; ring
    calc finalBalance iso hist adj scen i (k + 2) ws bal
        = finalBalance iso hist adj scen (i + 1) (k + 1) (ws + 7)
            (mkRow iso hist adj scen i ws bal).ending_balance := rfl
      _ = _ := by
          rw [ih]
          rw [h1, h2]
          rfl

/-- The row at 0-based position `k` of the loop output. -/
theorem rowsAux_get (iso : Int → Nat) (hist : List Transaction)
    (adj : ScenarioAdjustment) (scen : String) :
    ∀ (n i : Nat) (ws : Int) (bal : Option Rat) (k : Nat)
      (hk : k < (rowsAux iso hist adj scen i n ws bal).length),
      (rowsAux iso hist adj scen i n ws bal).get ⟨k, hk⟩ =
        mkRow iso hist adj scen (i + k) (ws + 7 * k)
          (finalBalance iso hist adj scen i k ws bal) := by
  intro n
  induction n with
  | zero =>
    intro i ws bal k hk
    simp [rowsAux] at hk
  | succ n ih =>
    intro i ws bal k hk
    cases k with
    | zero =>
      simp [rowsAux, List.get, finalBalance]
    | succ k =>
      have hk' : k < (rowsAux iso hist adj scen (i + 1) n (ws + 7)
          (mkRow iso hist adj scen i ws bal).ending_balance).length := by
        simpa [rowsAux, rowsAux_length] using hk
      have h1 : i + 1 + k = i + (k + 1) := by omega
      have h2 : ws + 7 + 7 * (k : Int) = ws + 7 * ((k : Nat) + 1 : Nat) := by
        push_cast; ring
      calc (rowsAux iso hist adj scen i (n + 1) ws bal).get ⟨k + 1, hk⟩
          = (rowsAux iso hist adj scen (i + 1) n (ws + 7)
              (mkRow iso hist adj scen i ws bal).ending_balance).get
                ⟨k, hk'⟩ := rfl
        _ = _ := by
            rw [ih]
            rw [h1, h2]
            rfl

/-- The last row of the loop output for a positive row count. -/
theorem rowsAux_getLast (iso : Int → Nat) (hist : List Transaction)
    (adj : ScenarioAdjustment) (scen : String) :
    ∀ (n i : Nat) (ws : Int) (bal : Option Rat),
      (rowsAux iso hist adj scen i (n + 1) ws bal).getLast? =
        some (mkRow iso hist adj scen (i + n) (ws + 7 * n)
          (finalBalance iso hist adj scen i n ws bal)) := by
  intro n
  induction n with
  | zero =>
    intro i ws bal
    simp [rowsAux, finalBalance]
  | succ n ih =>
    intro i ws bal
    have h1 : i + 1 + n = i + (n + 1) := by omega
    have h2 : ws + 7 + 7 * (n : Int) = ws + 7 * ((n : Nat) + 1 : Nat) := by
      push_cast; ring
    calc (rowsAux iso hist adj scen i (n + 2) ws bal).getLast?
        = (rowsAux iso hist adj scen (i + 1) (n + 1) (ws + 7)
            (mkRow iso hist adj scen i ws bal).ending_balance).getLast? := by
          simp only [rowsAux]
          rw [List.getLast?_cons_cons]
      _ = _ := by
          rw [ih]
          rw [h1, h2]
          rfl

/-- `generate_forecast` succeeds exactly when the scenario label is in
the fixed table. -/
theorem generateForecast_isSome (iso : Int → Nat) (hist : List Transaction)
    (start : Int) (ob : Rat) (scen : String) :
    (generateForecast iso hist start ob scen).isSome =
      (scenarioAdjustments scen).isSome := by
  cases h : scenarioAdjustments scen <;>
    simp [generateForecast, h]

/-- The anchor week start is a Monday on or after `start`, at most six
days later. -/
theorem firstMonday_spec (start : Int) :
    firstMonday start % 7 = 0 ∧ start ≤ firstMonday start ∧
      firstMonday start ≤ start + 6 := by
  unfold firstMonday
  omega

/-- A successful `generate_forecast` call yields the loop output for the
scenario's multiplier triple. -/
theorem generateForecast_eq_rowsAux (iso : Int → Nat)
    (hist : List Transaction) (start : Int) (ob : Rat) (scen : String)
    (adj : ScenarioAdjustment) (rows : List ForecastWeek)
    (hadj : scenarioAdjustments scen = some adj)
    (h : generateForecast iso hist start ob scen = some rows) :
    rows = rowsAux iso hist adj scen 0 13 (firstMonday start) (some ob) := by
  rw [generateForecast, hadj] at h
  simpa using h.symm

/-- A successful forecast has 13 rows. -/
theorem getD_generateForecast_length (iso : Int → Nat)
    (hist : List Transaction) (start : Int) (ob : Rat) (scen : String)
    (h : (scenarioAdjustments scen).isSome = true) :
    ((generateForecast iso hist start ob scen).getD []).length = 13 := by
  cases hadj : scenarioAdjustments scen with
  | none => rw [hadj] at h; simp at h
  | some adj => simp [generateForecast, hadj, rowsAux_length]

/-- C4: every valid `generate_forecast` call returns exactly 13 rows,
with `week_number` running 1..13, `week_start` Monday-aligned starting
at the first Monday on or after `start_date` (within the next six days)
and exactly seven days apart, and `week_end` six days after
`week_start`. -/
theorem generateForecast_week_structure (iso : Int → Nat)
    (hist : List Transaction) (start : Int) (ob : Rat) (scen : String)
    (rows : List ForecastWeek)
    (h : generateForecast iso hist start ob scen = some rows) :
    rows.length = 13 ∧
    firstMonday start % 7 = 0 ∧ start ≤ firstMonday start ∧
    firstMonday start ≤ start + 6 ∧
    ∀ (k : Nat) (hk : k < rows.length),
      (rows.get ⟨k, hk⟩).week_number = k + 1 ∧
      (rows.get ⟨k, hk⟩).week_start = firstMonday start + 7 * k ∧
      (rows.get ⟨k, hk⟩).week_start % 7 = 0 ∧
      (rows.get ⟨k, hk⟩).week_end = (rows.get ⟨k, hk⟩).week_start + 6 := by
  cases hadj : scenarioAdjustments scen with
  | none => rw [generateForecast, hadj] at h; simp at h
  | some adj =>
    obtain ⟨hm, hle, hle6⟩ := firstMonday_spec start
    have hrows := generateForecast_eq_rowsAux iso hist start ob scen adj
      rows hadj h
    subst hrows
    refine ⟨rowsAux_length iso hist adj scen 13 0 (firstMonday start)
      (some ob), hm, hle, hle6, ?_⟩
    intro k hk
    rw [rowsAux_get]
    refine ⟨by simp [mkRow], by simp [mkRow], ?_, by simp [mkRow]⟩
    simp only [mkRow]
    omega

/-- Witness for C4 at a concrete input. -/
theorem generateForecast_week_structure_witness :
    baseRowsRev.length = 13 := by
  have h : generateForecast isoOdd histRev 0 100 "base" =
      some baseRowsRev :=
    eq_some_getD _ _ (by rw [generateForecast_isSome]; rfl)
  exact (generateForecast_week_structure isoOdd histRev 0 100 "base"
    baseRowsRev h).1

/-- C1: in every forecast row the stored aggregates satisfy the exact
arithmetic identities `total_inflows = revenue + ar_collections`,
`total_outflows = cogs + payroll + operating_expenses`,
`net_cash_flow = total_inflows - total_outflows` and
`ending_balance = opening_balance + net_cash_flow`; the opening balance
of each later row is the previous row's ending balance, and the first
row opens at the caller-supplied balance. -/
theorem generateForecast_row_identities (iso : Int → Nat)
    (hist : List Transaction) (start : Int) (ob : Rat) (scen : String)
    (rows : List ForecastWeek)
    (h : generateForecast iso hist start ob scen = some rows) :
    (∀ (k : Nat) (hk : k < rows.length),
      (rows.get ⟨k, hk⟩).total_inflows =
        Option.map₂ (· + ·) (rows.get ⟨k, hk⟩).revenue
          (rows.get ⟨k, hk⟩).ar_collections ∧
      (rows.get ⟨k, hk⟩).total_outflows =
        Option.map₂ (· + ·)
          (Option.map₂ (· + ·) (rows.get ⟨k, hk⟩).cogs
            (rows.get ⟨k, hk⟩).payroll)
          (rows.get ⟨k, hk⟩).operating_expenses ∧
      (rows.get ⟨k, hk⟩).net_cash_flow =
        Option.map₂ (· - ·) (rows.get ⟨k, hk⟩).total_inflows
          (rows.get ⟨k, hk⟩).total_outflows ∧
      (rows.get ⟨k, hk⟩).ending_balance =
        Option.map₂ (· + ·) (rows.get ⟨k, hk⟩).opening_balance
          (rows.get ⟨k, hk⟩).net_cash_flow) ∧
    (∀ (k : Nat) (hk1 : k + 1 < rows.length) (hk : k < rows.length),
      (rows.get ⟨k + 1, hk1⟩).opening_balance =
        (rows.get ⟨k, hk⟩).ending_balance) ∧
    ∀ (h0 : 0 < rows.length),
      (rows.get ⟨0, h0⟩).opening_balance = some ob := by
  cases hadj : scenarioAdjustments scen with
  | none => rw [generateForecast, hadj] at h; simp at h
  | some adj =>
    have hrows := generateForecast_eq_rowsAux iso hist start ob scen adj
      rows hadj h
    subst hrows
    refine ⟨?_, ?_, ?_⟩
    · intro k hk
      rw [rowsAux_get]
      exact ⟨rfl, rfl, rfl, rfl⟩
    · intro k hk1 hk
      rw [rowsAux_get, rowsAux_get]
      show (finalBalance iso hist adj scen 0 (k + 1) (firstMonday start)
        (some ob)) = _
      rw [finalBalance_succ]
    · intro h0
      rw [rowsAux_get]
      rfl

/-- Witness for C1 at a concrete input. -/
theorem generateForecast_row_identities_witness :
    (baseRowsRev.get ⟨0, by decide⟩).opening_balance = some 100 := by
  have h : generateForecast isoOdd histRev 0 100 "base" =
      some baseRowsRev :=
    eq_some_getD _ _ (by rw [generateForecast_isSome]; rfl)
  exact (generateForecast_row_identities isoOdd histRev 0 100 "base"
    baseRowsRev h).2.2 _

/-- C5: `generate_forecast` uses the fixed multiplier table
base = (1.00, 1.00, 1.00), best = (1.15, 1.10, 0.95),
worst = (0.85, 0.90, 1.05), and any other scenario label makes the call
fail with no forecast rows. -/
theorem generateForecast_scenario_table (iso : Int → Nat)
    (hist : List Transaction) (start : Int) (ob : Rat) (scen : String)
    (h : scen ≠ "base" ∧ scen ≠ "best" ∧ scen ≠ "worst") :
    generateForecast iso hist start ob scen = none ∧
    scenarioAdjustments "base" = some ⟨1, 1, 1⟩ ∧
    scenarioAdjustments "best" = some ⟨23/20, 11/10, 19/20⟩ ∧
    scenarioAdjustments "worst" = some ⟨17/20, 9/10, 21/20⟩ := by
  obtain ⟨h1, h2, h3⟩ := h
  refine ⟨?_, ?_, ?_, ?_⟩
  · simp [generateForecast, scenarioAdjustments, h1, h2, h3]
  · rw [show scenarioAdjustments "base" =
      some ⟨100/100, 100/100, 100/100⟩ from rfl]
    simp only [Option.some.injEq, ScenarioAdjustment.mk.injEq]
    norm_num
  · rw [show scenarioAdjustments "best" =
      some ⟨115/100, 110/100, 95/100⟩ from rfl]
    simp only [Option.some.injEq, ScenarioAdjustment.mk.injEq]
    norm_num
  · rw [show scenarioAdjustments "worst" =
      some ⟨85/100, 90/100, 105/100⟩ from rfl]
    simp only [Option.some.injEq, ScenarioAdjustment.mk.injEq]
    norm_num

/-- Witness for C5 at a concrete unknown label. -/
theorem generateForecast_scenario_table_witness :
    generateForecast isoOdd histRev 0 100 "median" = none := by
  exact (generateForecast_scenario_table isoOdd histRev 0 100 "median"
    (by refine ⟨?_, ?_, ?_⟩ <;> decide)).1

/-- The source revenue projection agrees with the spec's formula (the
two differ only in how the growth factor is parenthesised). -/
theorem forecastRevenue_eq_spec (iso : Int → Nat) (hist : List Transaction)
    (ws : Int) : forecastRevenue iso hist ws = revenueSpec iso hist ws := by
  unfold forecastRevenue revenueSpec
  rcases hM : mean ((hist.filter
      (fun t => t.category == "Revenue" && iso t.date == iso ws)).map
      (fun t => t.amount)) with _ | m <;>
    rcases hA : mean ((hist.filter (fun t => t.category == "Revenue")).map
      (fun t => t.amount)) with _ | a <;>
    rcases hD : minDate hist with _ | d0 <;>
      simp only [hM, hA, hD, Option.map_none', Option.map_some'] <;>
      try rfl
  all_goals congr 1
  all_goals ring

/-- The source AR-collections projection agrees with the spec's lag-sum
formula. -/
theorem forecastARCollections_eq_spec (iso : Int → Nat)
    (hist : List Transaction) (ws : Int) (i : Nat) :
    forecastARCollections iso hist ws i = arCollectionsSpec iso hist ws i := by
  match i with
  | 0 =>
    simp [forecastARCollections, arCollectionsSpec,
      calculateCollectionPatterns_eq, osum, collectionFraction,
      List.range_succ, Int.ofNat_eq_coe]
  | 1 =>
    simp [forecastARCollections, arCollectionsSpec,
      calculateCollectionPatterns_eq, osum, collectionFraction,
      List.range_succ, Int.ofNat_eq_coe]
  | 2 =>
    simp [forecastARCollections, arCollectionsSpec,
      calculateCollectionPatterns_eq, osum, collectionFraction,
      List.range_succ, Int.ofNat_eq_coe]
  | 3 =>
    simp [forecastARCollections, arCollectionsSpec,
      calculateCollectionPatterns_eq, osum, collectionFraction,
      List.range_succ, Int.ofNat_eq_coe]
  | n + 4 =>
    have h1 : (1 : Nat) ≤ n + 4 := by omega
    have h2 : (2 : Nat) ≤ n + 4 := by omega
    have h3 : (3 : Nat) ≤ n + 4 := by omega
    have h4 : (4 : Nat) ≤ n + 4 := by omega
    simp [forecastARCollections, arCollectionsSpec,
      calculateCollectionPatterns_eq, osum, collectionFraction,
      List.range_succ, Int.ofNat_eq_coe, h1, h2, h3, h4]

/-- The source payroll projection, scaled by the expense multiplier,
agrees with the spec's formula. -/
theorem forecastPayroll_eq_spec (iso : Int → Nat) (hist : List Transaction)
    (e : Rat) (ws : Int) :
    forecastPayroll iso hist ws * e = payrollSpec iso hist e ws := by
  by_cases h : iso ws % 2 = 0 <;>
    simp [forecastPayroll, payrollSpec, payrollBaseAmount, h]

/-- C2: each forecast row's revenue is the spec formula — the matching
ISO-week historical mean (falling back to the overall Revenue mean over
4), times the linear growth factor, times the scenario revenue
multiplier — evaluated at the row's own week start. -/
theorem generateForecast_revenue_feature (iso : Int → Nat)
    (hist : List Transaction) (start : Int) (ob : Rat) (scen : String)
    (adj : ScenarioAdjustment) (rows : List ForecastWeek)
    (hadj : scenarioAdjustments scen = some adj)
    (h : generateForecast iso hist start ob scen = some rows)
    (k : Nat) (hk : k < rows.length) :
    (rows.get ⟨k, hk⟩).revenue =
      (revenueSpec iso hist ((rows.get ⟨k, hk⟩).week_start)).map
        (fun r => r * adj.revenue) := by
  have hrows := generateForecast_eq_rowsAux iso hist start ob scen adj
    rows hadj h
  subst hrows
  rw [rowsAux_get]
  show (forecastRevenue iso hist _).map _ = _
  rw [forecastRevenue_eq_spec]
  rfl

/-- Witness for C2 at a concrete input. -/
theorem generateForecast_revenue_feature_witness :
    (baseRowsRev.get ⟨0, by decide⟩).revenue =
      (revenueSpec isoOdd histRev
        ((baseRowsRev.get ⟨0, by decide⟩).week_start)).map
        (fun r => r * (100/100)) := by
  have h : generateForecast isoOdd histRev 0 100 "base" =
      some baseRowsRev :=
    eq_some_getD _ _ (by rw [generateForecast_isSome]; rfl)
  exact generateForecast_revenue_feature isoOdd histRev 0 100 "base"
    ⟨100/100, 100/100, 100/100⟩ baseRowsRev rfl h 0 (by decide)

/-- C3: each forecast row's AR collections are the scenario collections
multiplier times the lag sum of pre-scenario revenue estimates weighted
by the fixed fractions 0.30, 0.40, 0.20, 0.08, 0.02, a lag only
contributing when it does not exceed the row's 0-based index; in
particular the first week's sum holds only the lag-0 term. -/
theorem generateForecast_ar_feature (iso : Int → Nat)
    (hist : List Transaction) (start : Int) (ob : Rat) (scen : String)
    (adj : ScenarioAdjustment) (rows : List ForecastWeek)
    (hadj : scenarioAdjustments scen = some adj)
    (h : generateForecast iso hist start ob scen = some rows)
    (k : Nat) (hk : k < rows.length) :
    (rows.get ⟨k, hk⟩).ar_collections =
      (arCollectionsSpec iso hist ((rows.get ⟨k, hk⟩).week_start) k).map
        (fun a => a * adj.collections) ∧
    ∀ ws : Int, arCollectionsSpec iso hist ws 0 =
      (forecastRevenue iso hist ws).map (fun r => r * (30/100)) := by
  constructor
  · have hrows := generateForecast_eq_rowsAux iso hist start ob scen adj
      rows hadj h
    subst hrows
    rw [rowsAux_get]
    simp only [Nat.zero_add]
    show (forecastARCollections iso hist _ _).map _ = _
    rw [forecastARCollections_eq_spec]
    rfl
  · intro ws
    rcases hr : forecastRevenue iso hist ws with _ | r
    · simp [arCollectionsSpec, osum, List.range_succ, hr]
    · simp [arCollectionsSpec, osum, List.range_succ, hr,
        collectionFraction, Option.map₂, Int.ofNat_eq_coe]

/-- Witness for C3 at a concrete input. -/
theorem generateForecast_ar_feature_witness :
    (baseRowsRev.get ⟨1, by decide⟩).ar_collections =
      (arCollectionsSpec isoOdd histRev
        ((baseRowsRev.get ⟨1, by decide⟩).week_start) 1).map
        (fun a => a * (100/100)) := by
  have h : generateForecast isoOdd histRev 0 100 "base" =
      some baseRowsRev :=
    eq_some_getD _ _ (by rw [generateForecast_isSome]; rfl)
  exact (generateForecast_ar_feature isoOdd histRev 0 100 "base"
    ⟨100/100, 100/100, 100/100⟩ baseRowsRev rfl h 1 (by decide)).1

/-- C6: each forecast row's COGS is 0.35 times the row's own (already
scenario-adjusted) revenue figure; the expense multiplier never touches
COGS. -/
theorem generateForecast_cogs_feature (iso : Int → Nat)
    (hist : List Transaction) (start : Int) (ob : Rat) (scen : String)
    (rows : List ForecastWeek)
    (h : generateForecast iso hist start ob scen = some rows)
    (k : Nat) (hk : k < rows.length) :
    (rows.get ⟨k, hk⟩).cogs =
      ((rows.get ⟨k, hk⟩).revenue).map (fun r => r * (35/100)) := by
  cases hadj : scenarioAdjustments scen with
  | none => rw [generateForecast, hadj] at h; simp at h
  | some adj =>
    have hrows := generateForecast_eq_rowsAux iso hist start ob scen adj
      rows hadj h
    subst hrows
    rw [rowsAux_get]
    rfl

/-- Witness for C6 at a concrete input. -/
theorem generateForecast_cogs_feature_witness :
    (baseRowsRev.get ⟨2, by decide⟩).cogs =
      ((baseRowsRev.get ⟨2, by decide⟩).revenue).map
        (fun r => r * (35/100)) := by
  have h : generateForecast isoOdd histRev 0 100 "base" =
      some baseRowsRev :=
    eq_some_getD _ _ (by rw [generateForecast_isSome]; rfl)
  exact generateForecast_cogs_feature isoOdd histRev 0 100 "base"
    baseRowsRev h 2 (by decide)

/-- C7: each forecast row's payroll is the historical Payroll mean
(default 50000) scaled by the scenario expense multiplier when the ISO
week number of the row's week start is even, and exactly 0 when it is
odd. -/
theorem generateForecast_payroll_feature (iso : Int → Nat)
    (hist : List Transaction) (start : Int) (ob : Rat) (scen : String)
    (adj : ScenarioAdjustment) (rows : List ForecastWeek)
    (hadj : scenarioAdjustments scen = some adj)
    (h : generateForecast iso hist start ob scen = some rows)
    (k : Nat) (hk : k < rows.length) :
    (rows.get ⟨k, hk⟩).payroll =
      some (payrollSpec iso hist adj.expenses
        ((rows.get ⟨k, hk⟩).week_start)) := by
  have hrows := generateForecast_eq_rowsAux iso hist start ob scen adj
    rows hadj h
  subst hrows
  rw [rowsAux_get]
  show some (forecastPayroll iso hist _ * adj.expenses) = _
  rw [forecastPayroll_eq_spec]
  rfl

/-- Witness for C7 at a concrete input. -/
theorem generateForecast_payroll_feature_witness :
    (baseRowsRev.get ⟨3, by decide⟩).payroll =
      some (payrollSpec isoOdd histRev (100/100)
        ((baseRowsRev.get ⟨3, by decide⟩).week_start)) := by
  have h : generateForecast isoOdd histRev 0 100 "base" =
      some baseRowsRev :=
    eq_some_getD _ _ (by rw [generateForecast_isSome]; rfl)
  exact generateForecast_payroll_feature isoOdd histRev 0 100 "base"
    ⟨100/100, 100/100, 100/100⟩ baseRowsRev rfl h 3 (by decide)

/-- With no Payroll rows the payroll base amount is the default
50000. -/
theorem payrollBaseAmount_default (hist : List Transaction)
    (hf : hist.filter (fun t => t.category == "Payroll") = []) :
    payrollBaseAmount hist = 50000 := by
  simp [payrollBaseAmount, hf, mean]

/-- With no opex-category rows the opex projection is the default
15000. -/
theorem forecastOpex_default (hist : List Transaction)
    (hf : hist.filter (fun t => opexCategories.contains t.category) = []) :
    forecastOpex hist = 15000 := by
  simp only [forecastOpex]
  rw [hf]
  simp [mean]

/-- C8 counterexample: with no Revenue rows in the historical data,
`generate_forecast` still succeeds, but the revenue projection of the
first row is NaN (here `none`) — an undefined value, not a documented
default constant. -/
theorem missing_revenue_no_default :
    (generateForecast isoOdd histPay 0 100 "base").isSome = true ∧
    (((generateForecast isoOdd histPay 0 100 "base").getD []).getD 0
      { week_number := 0, week_start := 0, week_end := 0,
        opening_balance := none, revenue := some 0, ar_collections := none,
        total_inflows := none, cogs := none, payroll := none,
        operating_expenses := none, total_outflows := none,
        net_cash_flow := none, ending_balance := none,
        scenario := "" }).revenue = none := by
  constructor
  · decide
  · decide

/-- C8 (amended): the absence of AR Collections, Payroll or
opex-category rows is not an error — the collection pattern falls back
to the fixed constants, payroll to 50000 and opex to 15000, and
`generate_forecast` still succeeds; the absence of Revenue rows,
however, leaves the revenue projection undefined (NaN) rather than
defaulting to a constant. -/
theorem missing_category_defaults (iso : Int → Nat)
    (hist : List Transaction) (start : Int) (ob : Rat) :
    ((hist.filter (fun t => t.category == "AR Collections")) = [] →
      calculateCollectionPatterns hist =
        { current := 30/100, week_1 := 40/100, week_2 := 20/100,
          week_3 := 8/100, week_4 := 2/100 }) ∧
    ((hist.filter (fun t => t.category == "Payroll")) = [] →
      payrollBaseAmount hist = 50000) ∧
    ((hist.filter (fun t => opexCategories.contains t.category)) = [] →
      forecastOpex hist = 15000) ∧
    (generateForecast iso hist start ob "base").isSome = true ∧
    ((hist.filter (fun t => t.category == "Revenue")) = [] →
      ∀ ws : Int, forecastRevenue iso hist ws = none) := by
  refine ⟨fun _ => calculateCollectionPatterns_eq hist, ?_, ?_, ?_, ?_⟩
  · exact fun hf => payrollBaseAmount_default hist hf
  · exact fun hf => forecastOpex_default hist hf
  · rw [generateForecast_isSome]
    rfl
  · intro hf ws
    have hm : (hist.filter
        (fun t => t.category == "Revenue" && iso t.date == iso ws)) = [] := by
      rw [List.filter_eq_nil_iff] at hf ⊢
      intro a ha hcon
      rw [Bool.and_eq_true] at hcon
      exact hf a ha hcon.1
    unfold forecastRevenue
    rcases hD : minDate hist with _ | d0 <;>
      simp [hm, hf, mean, hD]

/-- Witness for the amended C8 at a concrete input. -/
theorem missing_category_defaults_witness :
    payrollBaseAmount histRev = 50000 ∧ forecastOpex histRev = 15000 ∧
    (generateForecast isoOdd histRev 0 100 "base").isSome = true := by
  have h := missing_category_defaults isoOdd histRev 0 100
  exact ⟨h.2.1 (by decide), h.2.2.1 (by decide), h.2.2.2.1⟩

/-- The mean of a non-empty list is defined. -/
theorem mean_isSome (l : List Rat) (h : l ≠ []) : (mean l).isSome = true := by
  simp [mean, h]

/-- With at least one historical Revenue row, the revenue projection is
defined at every date. -/
theorem forecastRevenue_isSome (iso : Int → Nat) (hist : List Transaction)
    (hR : hist.filter (fun t => t.category == "Revenue") ≠ []) (ws : Int) :
    (forecastRevenue iso hist ws).isSome = true := by
  have hne : hist ≠ [] := by
    intro h
    rw [h] at hR
    simp at hR
  obtain ⟨d0, hD⟩ : ∃ d0, minDate hist = some d0 := by
    cases hist with
    | nil => exact absurd rfl hne
    | cons t ts => exact ⟨_, rfl⟩
  have hAll : (mean ((hist.filter (fun t => t.category == "Revenue")).map
      (fun t => t.amount))).isSome = true := by
    apply mean_isSome
    intro hc
    exact hR (by simpa using hc)
  obtain ⟨a, hA⟩ := Option.isSome_iff_exists.mp hAll
  unfold forecastRevenue
  rcases hM : mean ((hist.filter
      (fun t => t.category == "Revenue" && iso t.date == iso ws)).map
      (fun t => t.amount)) with _ | m <;>
    simp [hM, hA, hD, Option.map_some']

/-- With at least one historical Revenue row, the AR-collections
projection is defined at every date and index. -/
theorem forecastARCollections_isSome (iso : Int → Nat)
    (hist : List Transaction)
    (hR : hist.filter (fun t => t.category == "Revenue") ≠ [])
    (ws : Int) (i : Nat) :
    (forecastARCollections iso hist ws i).isSome = true := by
  obtain ⟨r0, h0⟩ := Option.isSome_iff_exists.mp
    (forecastRevenue_isSome iso hist hR ws)
  obtain ⟨r1, h1⟩ := Option.isSome_iff_exists.mp
    (forecastRevenue_isSome iso hist hR (ws - 7))
  obtain ⟨r2, h2⟩ := Option.isSome_iff_exists.mp
    (forecastRevenue_isSome iso hist hR (ws - 14))
  obtain ⟨r3, h3⟩ := Option.isSome_iff_exists.mp
    (forecastRevenue_isSome iso hist hR (ws - 21))
  obtain ⟨r4, h4⟩ := Option.isSome_iff_exists.mp
    (forecastRevenue_isSome iso hist hR (ws - 28))
  simp only [forecastARCollections, calculateCollectionPatterns_eq,
    List.foldl]
  norm_num
  split_ifs <;> simp [h0, h1, h2, h3, h4, Option.map₂]

/-- The ending balance assembled by one loop iteration, when revenue and
AR collections are defined. -/
theorem mkRow_ending_balance (iso : Int → Nat) (hist : List Transaction)
    (adj : ScenarioAdjustment) (scen : String) (i : Nat) (ws : Int)
    (b r a : Rat)
    (hr : forecastRevenue iso hist ws = some r)
    (ha : forecastARCollections iso hist ws i = some a) :
    (mkRow iso hist adj scen i ws (some b)).ending_balance =
      some (b + ((r * adj.revenue + a * adj.collections) -
        ((r * adj.revenue * (35/100) +
          forecastPayroll iso hist ws * adj.expenses) +
          forecastOpex hist * adj.expenses))) := by
  simp only [mkRow, hr, ha]
  rfl

/-- With at least one historical Revenue row, the running balance stays
defined through the loop. -/
theorem finalBalance_isSome (iso : Int → Nat) (hist : List Transaction)
    (adj : ScenarioAdjustment) (scen : String)
    (hR : hist.filter (fun t => t.category == "Revenue") ≠ []) :
    ∀ (n i : Nat) (ws : Int) (b : Rat),
      (finalBalance iso hist adj scen i n ws (some b)).isSome = true := by
  intro n
  induction n with
  | zero => intro i ws b; rfl
  | succ n ih =>
    intro i ws b
    obtain ⟨r, hr⟩ := Option.isSome_iff_exists.mp
      (forecastRevenue_isSome iso hist hR ws)
    obtain ⟨a, ha⟩ := Option.isSome_iff_exists.mp
      (forecastARCollections_isSome iso hist hR ws i)
    show (finalBalance iso hist adj scen (i + 1) n (ws + 7)
      (mkRow iso hist adj scen i ws (some b)).ending_balance).isSome = true
    rw [mkRow_ending_balance iso hist adj scen i ws b r a hr ha]
    exact ih (i + 1) (ws + 7) _

/-- The week-13 ending balance is the running balance after 13 loop
iterations. -/
theorem weekThirteenEnding_eq (iso : Int → Nat) (hist : List Transaction)
    (start : Int) (ob : Rat) (scen : String) (adj : ScenarioAdjustment)
    (hadj : scenarioAdjustments scen = some adj) :
    weekThirteenEnding iso hist start ob scen =
      finalBalance iso hist adj scen 0 13 (firstMonday start) (some ob) := by
  unfold weekThirteenEnding
  simp only [generateForecast]
  rw [hadj]
  simp only [Option.map_some', Option.getD_some]
  rw [show (13 : Nat) = 12 + 1 from rfl, rowsAux_getLast]
  simp only [Option.some_bind]
  rw [← finalBalance_succ]

/-- With a Revenue row present, the week-13 ending balance of any valid
scenario is defined. -/
theorem weekThirteenEnding_isSome (iso : Int → Nat)
    (hist : List Transaction) (start : Int) (ob : Rat) (scen : String)
    (adj : ScenarioAdjustment)
    (hadj : scenarioAdjustments scen = some adj)
    (hR : hist.filter (fun t => t.category == "Revenue") ≠ []) :
    (weekThirteenEnding iso hist start ob scen).isSome = true := by
  rw [weekThirteenEnding_eq iso hist start ob scen adj hadj]
  exact finalBalance_isSome iso hist adj scen hR 13 0 (firstMonday start) ob

/-- `sensitivity_analysis` always returns ten rows. -/
theorem sensitivityAnalysis_length (iso : Int → Nat)
    (hist : List Transaction) (start : Int) (ob : Rat) :
    (sensitivityAnalysis iso hist start ob).length = 10 := by
  simp [sensitivityAnalysis, sensitivityChanges]

/-- C9 counterexample: with no Revenue rows in the historical data the
base forecast's week-13 ending balance is NaN, so the 0%-change Revenue
row's `variance_from_base` is NaN (`none`) rather than 0, refuting the
claim for arbitrary historical input. -/
theorem sensitivityAnalysis_zero_variance_undefined :
    ((sensitivityAnalysis isoOdd histPay 0 100).getD 2
      sensPlaceholder).variance_from_base ≠ some 0 := by
  decide

/-- C9 (amended): provided the historical data holds at least one
Revenue row, `sensitivity_analysis` returns exactly ten rows — five
Revenue rows with changes −20%..+20% and
`ending_balance = base_ending * (1 + change * 1.5)` followed by five
Collection Rate rows with
`ending_balance = base_ending * (1 + change * 0.8)` — each row's
`variance_from_base` is its ending balance minus the base week-13
ending balance, and the 0%-change row of each group has variance 0. -/
theorem sensitivityAnalysis_props (iso : Int → Nat)
    (hist : List Transaction) (start : Int) (ob : Rat)
    (hR : hist.filter (fun t => t.category == "Revenue") ≠ []) :
    (sensitivityAnalysis iso hist start ob).length = 10 ∧
    (weekThirteenEnding iso hist start ob "base").isSome = true ∧
    (∀ j : Nat, j < 5 →
      ((sensitivityAnalysis iso hist start ob).getD j
        sensPlaceholder).variable_ = "Revenue" ∧
      ((sensitivityAnalysis iso hist start ob).getD j
        sensPlaceholder).change =
        ["-20%", "-10%", "+0%", "+10%", "+20%"].getD j "" ∧
      ((sensitivityAnalysis iso hist start ob).getD j
        sensPlaceholder).ending_balance =
        some ((weekThirteenEnding iso hist start ob "base").getD 0 *
          (1 + [-1/5, -1/10, 0, 1/10, 1/5].getD j 0 * (3/2))) ∧
      ((sensitivityAnalysis iso hist start ob).getD j
        sensPlaceholder).variance_from_base =
        some ((weekThirteenEnding iso hist start ob "base").getD 0 *
          (1 + [-1/5, -1/10, 0, 1/10, 1/5].getD j 0 * (3/2)) -
          (weekThirteenEnding iso hist start ob "base").getD 0) ∧
      ((sensitivityAnalysis iso hist start ob).getD (j + 5)
        sensPlaceholder).variable_ = "Collection Rate" ∧
      ((sensitivityAnalysis iso hist start ob).getD (j + 5)
        sensPlaceholder).change =
        ["-20%", "-10%", "+0%", "+10%", "+20%"].getD j "" ∧
      ((sensitivityAnalysis iso hist start ob).getD (j + 5)
        sensPlaceholder).ending_balance =
        some ((weekThirteenEnding iso hist start ob "base").getD 0 *
          (1 + [-1/5, -1/10, 0, 1/10, 1/5].getD j 0 * (4/5))) ∧
      ((sensitivityAnalysis iso hist start ob).getD (j + 5)
        sensPlaceholder).variance_from_base =
        some ((weekThirteenEnding iso hist start ob "base").getD 0 *
          (1 + [-1/5, -1/10, 0, 1/10, 1/5].getD j 0 * (4/5)) -
          (weekThirteenEnding iso hist start ob "base").getD 0)) ∧
    ((sensitivityAnalysis iso hist start ob).getD 2
      sensPlaceholder).variance_from_base = some 0 ∧
    ((sensitivityAnalysis iso hist start ob).getD 7
      sensPlaceholder).variance_from_base = some 0 := by
  have hsome : (weekThirteenEnding iso hist start ob "base").isSome = true :=
    weekThirteenEnding_isSome iso hist start ob "base"
      ⟨100/100, 100/100, 100/100⟩ rfl hR
  have hB : weekThirteenEnding iso hist start ob "base" =
      some ((weekThirteenEnding iso hist start ob "base").getD 0) :=
    eq_some_getD _ 0 hsome
  have hs : sensitivityAnalysis iso hist start ob =
      sensitivityChanges.map (mkSensRow "Revenue" (15/10)
        (weekThirteenEnding iso hist start ob "base")) ++
      sensitivityChanges.map (mkSensRow "Collection Rate" (8/10)
        (weekThirteenEnding iso hist start ob "base")) := rfl
  refine ⟨sensitivityAnalysis_length iso hist start ob, hsome, ?_, ?_, ?_⟩
  · intro j hj
    interval_cases j <;>
      refine ⟨rfl, rfl, ?_, ?_, rfl, rfl, ?_, ?_⟩ <;>
        (rw [hs, hB]
         simp only [sensitivityChanges, List.map_cons, List.map_nil,
           List.cons_append, List.nil_append, List.getD, List.get?,
           mkSensRow, Option.map_some', Option.map₂, Option.some_bind,
           Option.getD_some, Option.some.injEq]
         norm_num)
  · rw [hs, hB]
    simp only [sensitivityChanges, List.map_cons, List.map_nil,
      List.cons_append, List.nil_append, List.getD, List.get?,
      mkSensRow, Option.map_some', Option.map₂, Option.some_bind,
      Option.getD_some, Option.some.injEq]
    norm_num
  · rw [hs, hB]
    simp only [sensitivityChanges, List.map_cons, List.map_nil,
      List.cons_append, List.nil_append, List.getD, List.get?,
      mkSensRow, Option.map_some', Option.map₂, Option.some_bind,
      Option.getD_some, Option.some.injEq]
    norm_num

/-- Witness for the amended C9 at a concrete input. -/
theorem sensitivityAnalysis_props_witness :
    (sensitivityAnalysis isoOdd histRev 0 100).length = 10 := by
  exact (sensitivityAnalysis_props isoOdd histRev 0 100 (by decide)).1

/-- An option with positive default-0 value is `some` that value. -/
theorem pos_getD_eq_some {o : Option Rat} (h : 0 < o.getD 0) :
    o = some (o.getD 0) := by
  cases o with
  | none => simp at h
  | some a => rfl

/-- Payroll projections are nonnegative when the payroll base amount
is. -/
theorem forecastPayroll_nonneg (iso : Int → Nat) (hist : List Transaction)
    (hp : 0 ≤ payrollBaseAmount hist) (ws : Int) :
    0 ≤ forecastPayroll iso hist ws := by
  unfold forecastPayroll
  split <;> simp [hp]

/-- Monotonicity of the running balance in the scenario multipliers:
with weakly larger revenue and collections multipliers, a weakly
smaller expense multiplier, positive pre-scenario revenue and
collections, and nonnegative payroll and opex levels, the loop keeps
the balance weakly larger. -/
theorem finalBalance_le (iso : Int → Nat) (hist : List Transaction)
    (adjLo adjHi : ScenarioAdjustment) (s1 s2 : String)
    (hRm : adjLo.revenue ≤ adjHi.revenue)
    (hCm : adjLo.collections ≤ adjHi.collections)
    (hEm : adjHi.expenses ≤ adjLo.expenses)
    (hp : 0 ≤ payrollBaseAmount hist)
    (ho : 0 ≤ forecastOpex hist) :
    ∀ (n i : Nat) (ws : Int) (b1 b2 : Rat), b1 ≤ b2 →
      (∀ k : Nat, k < n →
        0 < (forecastRevenue iso hist (ws + 7 * k)).getD 0 ∧
        0 < (forecastARCollections iso hist (ws + 7 * k) (i + k)).getD 0) →
      ∃ v1 v2,
        finalBalance iso hist adjLo s1 i n ws (some b1) = some v1 ∧
        finalBalance iso hist adjHi s2 i n ws (some b2) = some v2 ∧
        v1 ≤ v2 := by
  intro n
  induction n with
  | zero => intro i ws b1 b2 hb _; exact ⟨b1, b2, rfl, rfl, hb⟩
  | succ n ih =>
    intro i ws b1 b2 hb hpos
    obtain ⟨hr0, ha0⟩ := hpos 0 (by omega)
    simp only [Nat.cast_zero, mul_zero, add_zero, Nat.add_zero] at hr0 ha0
    have hrS := pos_getD_eq_some hr0
    have haS := pos_getD_eq_some ha0
    have hpay := forecastPayroll_nonneg iso hist hp ws
    have e1 := mkRow_ending_balance iso hist adjLo s1 i ws b1
      ((forecastRevenue iso hist ws).getD 0)
      ((forecastARCollections iso hist ws i).getD 0) hrS haS
    have e2 := mkRow_ending_balance iso hist adjHi s2 i ws b2
      ((forecastRevenue iso hist ws).getD 0)
      ((forecastARCollections iso hist ws i).getD 0) hrS haS
    show ∃ v1 v2,
      finalBalance iso hist adjLo s1 (i + 1) n (ws + 7)
        (mkRow iso hist adjLo s1 i ws (some b1)).ending_balance = some v1 ∧
      finalBalance iso hist adjHi s2 (i + 1) n (ws + 7)
        (mkRow iso hist adjHi s2 i ws (some b2)).ending_balance = some v2 ∧
      v1 ≤ v2
    rw [e1, e2]
    apply ih (i + 1) (ws + 7)
    · nlinarith [mul_nonneg (le_of_lt hr0) (sub_nonneg.mpr hRm),
        mul_nonneg (le_of_lt ha0) (sub_nonneg.mpr hCm),
        mul_nonneg hpay (sub_nonneg.mpr hEm),
        mul_nonneg ho (sub_nonneg.mpr hEm)]
    · intro k hk
      obtain ⟨h1, h2⟩ := hpos (k + 1) (by omega)
      constructor
      · have harg : ws + 7 + 7 * (k : Int) = ws + 7 * ((k : Nat) + 1 : Nat) := by
          push_cast; ring
        rw [harg]
        exact h1
      · have harg : ws + 7 + 7 * (k : Int) = ws + 7 * ((k : Nat) + 1 : Nat) := by
          push_cast; ring
        have hidx : i + 1 + k = i + (k + 1) := by omega
        rw [harg, hidx]
        exact h2

/-- C10: when every forecast week's pre-scenario revenue and
AR-collections estimates are strictly positive and the (flat) payroll
and opex levels are nonnegative, the week-13 ending balances are
ordered worst ≤ base ≤ best. -/
theorem generateForecast_scenario_ordering (iso : Int → Nat)
    (hist : List Transaction) (start : Int) (ob : Rat)
    (hrev : ∀ k : Nat, k < 13 →
      0 < (forecastRevenue iso hist (firstMonday start + 7 * k)).getD 0)
    (har : ∀ k : Nat, k < 13 →
      0 < (forecastARCollections iso hist
        (firstMonday start + 7 * k) k).getD 0)
    (hp : 0 ≤ payrollBaseAmount hist) (ho : 0 ≤ forecastOpex hist) :
    (weekThirteenEnding iso hist start ob "worst").isSome = true ∧
    (weekThirteenEnding iso hist start ob "base").isSome = true ∧
    (weekThirteenEnding iso hist start ob "best").isSome = true ∧
    (weekThirteenEnding iso hist start ob "worst").getD 0 ≤
      (weekThirteenEnding iso hist start ob "base").getD 0 ∧
    (weekThirteenEnding iso hist start ob "base").getD 0 ≤
      (weekThirteenEnding iso hist start ob "best").getD 0 := by
  have hpos : ∀ k : Nat, k < 13 →
      0 < (forecastRevenue iso hist (firstMonday start + 7 * k)).getD 0 ∧
      0 < (forecastARCollections iso hist
        (firstMonday start + 7 * k) (0 + k)).getD 0 := by
    intro k hk
    exact ⟨hrev k hk, by simpa using har k hk⟩
  obtain ⟨w1, w2, hw1, hw2, hw12⟩ := finalBalance_le iso hist
    ⟨85/100, 90/100, 105/100⟩ ⟨100/100, 100/100, 100/100⟩ "worst" "base"
    (by norm_num) (by norm_num) (by norm_num) hp ho
    13 0 (firstMonday start) ob ob le_rfl hpos
  obtain ⟨v1, v2, hv1, hv2, hv12⟩ := finalBalance_le iso hist
    ⟨100/100, 100/100, 100/100⟩ ⟨115/100, 110/100, 95/100⟩ "base" "best"
    (by norm_num) (by norm_num) (by norm_num) hp ho
    13 0 (firstMonday start) ob ob le_rfl hpos
  rw [weekThirteenEnding_eq iso hist start ob "worst"
      ⟨85/100, 90/100, 105/100⟩ rfl,
    weekThirteenEnding_eq iso hist start ob "base"
      ⟨100/100, 100/100, 100/100⟩ rfl,
    weekThirteenEnding_eq iso hist start ob "best"
      ⟨115/100, 110/100, 95/100⟩ rfl]
  have hbv : w2 = v1 := Option.some.inj (hw2.symm.trans hv1)
  subst hbv
  rw [hw1, hw2, hv2]
  exact ⟨rfl, rfl, rfl, by simpa using hw12, by simpa using hv12⟩

/-- Witness for C10 at a concrete input. -/
theorem generateForecast_scenario_ordering_witness :
    (weekThirteenEnding isoOdd histRev 0 100 "worst").getD 0 ≤
      (weekThirteenEnding isoOdd histRev 0 100 "base").getD 0 ∧
    (weekThirteenEnding isoOdd histRev 0 100 "base").getD 0 ≤
      (weekThirteenEnding isoOdd histRev 0 100 "best").getD 0 := by
  have h := generateForecast_scenario_ordering isoOdd histRev 0 100
    (by
      intro k hk
      interval_cases k <;>
        norm_num [forecastRevenue, mean, minDate, histRev, isoOdd,
          firstMonday])
    (by
      intro k hk
      interval_cases k <;>
        norm_num [forecastARCollections, calculateCollectionPatterns_eq,
          forecastRevenue, mean, minDate, histRev, isoOdd, firstMonday,
          List.foldl, Option.map₂])
    (by rw [payrollBaseAmount_default histRev (by decide)]; norm_num)
    (by rw [forecastOpex_default histRev (by decide)]; norm_num)
  exact ⟨h.2.2.2.1, h.2.2.2.2⟩

end Wcf
